import Mathlib

/-!
Shallow embedding of `src/utils/loss_prevention.py` (class `LossPreventionSystem`)
and proofs about the claims of the specification.

Conventions of the embedding:
* Python floats are modelled as exact rationals (`ℚ`).
* A Python method reads and (potentially) writes the fields of `self`; each
  method is therefore embedded in state-passing style, returning its result
  together with the (possibly updated) `LossPreventionSystem` record.  The
  translation of a method body threads every assignment to `self`; a body with
  no such assignment returns the input record.
* `direction` is a Python `int` (`1` for long, anything else short), modelled
  as `ℤ` with the same `= 1` test as the source.
* Fallible code (Python raising) is modelled with `Except String`.
* `pandas` specifics are modelled where the code relies on them:
  `Series.std()` uses `ddof = 1` and yields NaN on fewer than two data points;
  NaN compared with `>` is `False`.  NaN is modelled as `Option.none`.
-/

/-- The mutable risk-parameter fields set in `LossPreventionSystem.__init__`. -/
structure LossPreventionSystem where
  max_position_size_pct : ℚ
  max_risk_per_trade_pct : ℚ
  max_daily_loss_pct : ℚ
  max_drawdown_pct : ℚ
  trailing_stop_pct : ℚ
  volatility_adjustment : Bool
  correlation_filter : Bool
  max_open_positions : ℤ
  deriving Repr, DecidableEq

/-- The default values assigned by `__init__` (lines 10-20 of the source). -/
def initSystem : LossPreventionSystem :=
  { max_position_size_pct := 5
    max_risk_per_trade_pct := 2
    max_daily_loss_pct := 5
    max_drawdown_pct := 15
    trailing_stop_pct := 2
    volatility_adjustment := true
    correlation_filter := true
    max_open_positions := 3 }

/-- The `**kwargs` argument of `set_risk_parameters`: each recognised key is
either absent (`none`) or present with a value. -/
structure RiskKwargs where
  max_position_size_pct : Option ℚ := none
  max_risk_per_trade_pct : Option ℚ := none
  max_daily_loss_pct : Option ℚ := none
  max_drawdown_pct : Option ℚ := none
  trailing_stop_pct : Option ℚ := none
  volatility_adjustment : Option Bool := none
  correlation_filter : Option Bool := none
  max_open_positions : Option ℤ := none
  deriving Repr, DecidableEq

/-- `set_risk_parameters(self, **kwargs)` (lines 22-44): each key present in
`kwargs` overwrites the corresponding field, absent keys leave it unchanged.
No validation is performed. -/
def set_risk_parameters (s : LossPreventionSystem) (kw : RiskKwargs) :
    LossPreventionSystem :=
  { max_position_size_pct := kw.max_position_size_pct.getD s.max_position_size_pct
    max_risk_per_trade_pct := kw.max_risk_per_trade_pct.getD s.max_risk_per_trade_pct
    max_daily_loss_pct := kw.max_daily_loss_pct.getD s.max_daily_loss_pct
    max_drawdown_pct := kw.max_drawdown_pct.getD s.max_drawdown_pct
    trailing_stop_pct := kw.trailing_stop_pct.getD s.trailing_stop_pct
    volatility_adjustment := kw.volatility_adjustment.getD s.volatility_adjustment
    correlation_filter := kw.correlation_filter.getD s.correlation_filter
    max_open_positions := kw.max_open_positions.getD s.max_open_positions }

/-- The states reachable from the default construction by any sequence of
`set_risk_parameters` calls. -/
inductive ReachableState : LossPreventionSystem → Prop
  | init : ReachableState initSystem
  | step {s : LossPreventionSystem} (kw : RiskKwargs) :
      ReachableState s → ReachableState (set_risk_parameters s kw)

/-- The invariant claimed by the specification for `RiskParameters`. -/
def ParamInvariant (s : LossPreventionSystem) : Prop :=
  0 ≤ s.max_position_size_pct ∧ 0 ≤ s.max_risk_per_trade_pct ∧
  0 ≤ s.max_daily_loss_pct ∧ 0 ≤ s.max_drawdown_pct ∧
  0 ≤ s.trailing_stop_pct ∧ 1 ≤ s.max_open_positions

instance (s : LossPreventionSystem) : Decidable (ParamInvariant s) := by
  unfold ParamInvariant; infer_instance

/-- `update_trailing_stop(self, entry_price, current_price, current_stop,
direction)` (lines 141-171).  Reads only `self.trailing_stop_pct`; the body
never assigns a `self` field, so the state comes back unchanged. -/
def update_trailing_stop (s : LossPreventionSystem)
    (entry_price current_price current_stop : ℚ) (direction : ℤ) :
    ℚ × LossPreventionSystem :=
  if direction = 1 then
    let trailing_stop := current_price * (1 - s.trailing_stop_pct / 100)
    if trailing_stop > current_stop then (trailing_stop, s) else (current_stop, s)
  else
    let trailing_stop := current_price * (1 + s.trailing_stop_pct / 100)
    if trailing_stop < current_stop then (trailing_stop, s) else (current_stop, s)

/-- `calculate_position_size(self, account_balance, entry_price, stop_loss,
volatility=None)` (lines 46-81). -/
def calculate_position_size (s : LossPreventionSystem)
    (account_balance entry_price stop_loss : ℚ) (volatility : Option ℚ) :
    ℚ × LossPreventionSystem :=
  let risk_amount := account_balance * (s.max_risk_per_trade_pct / 100)
  let risk_per_unit := |entry_price - stop_loss|
  if risk_per_unit = 0 then (0, s)
  else
    let position_size := risk_amount / risk_per_unit
    let position_size :=
      match s.volatility_adjustment, volatility with
      | true, some v => position_size * (1 / (1 + v))
      | _, _ => position_size
    let max_position_size := account_balance * (s.max_position_size_pct / 100) / entry_price
    (min position_size max_position_size, s)

/-- `calculate_stop_loss(self, entry_price, direction, atr=None,
fixed_pct=None)` (lines 83-112).  The body performs no input validation; the
only way it can raise is the float division `2 * atr / entry_price` when
`entry_price == 0.0`, a Python `ZeroDivisionError`. -/
def calculate_stop_loss (s : LossPreventionSystem)
    (entry_price : ℚ) (direction : ℤ) (atr fixed_pct : Option ℚ) :
    Except String ℚ × LossPreventionSystem :=
  let stop_pct : Except String ℚ :=
    match fixed_pct, atr with
    | some f, _ => .ok f
    | none, some a =>
        if entry_price = 0 then .error "ZeroDivisionError: float division by zero"
        else .ok ((2 * a / entry_price) * 100)
    | none, none => .ok 5
  match stop_pct with
  | .error e => (.error e, s)
  | .ok pct =>
      if direction = 1 then (.ok (entry_price * (1 - pct / 100)), s)
      else (.ok (entry_price * (1 + pct / 100)), s)

/-- `calculate_take_profit(self, entry_price, stop_loss, direction,
risk_reward_ratio=2.0)` (lines 114-139). -/
def calculate_take_profit (s : LossPreventionSystem)
    (entry_price stop_loss : ℚ) (direction : ℤ) ( risk_reward_ratio : ℚ) :
    ℚ × LossPreventionSystem :=
  let risk := |entry_price - stop_loss|
  let reward := risk * risk_reward_ratio
  if direction = 1 then (entry_price + reward, s) else (entry_price - reward, s)

/-- `check_max_daily_loss(self, daily_pnl, account_balance)` (lines 173-186). -/
def check_max_daily_loss (s : LossPreventionSystem)
    (daily_pnl account_balance : ℚ) : Bool × LossPreventionSystem :=
  let daily_loss_pct := (daily_pnl / account_balance) * 100
  (decide (daily_loss_pct ≤ -s.max_daily_loss_pct), s)

/-- `check_max_drawdown(self, current_balance, peak_balance)` (lines 188-201). -/
def check_max_drawdown (s : LossPreventionSystem)
    (current_balance peak_balance : ℚ) : Bool × LossPreventionSystem :=
  let drawdown_pct := ((current_balance - peak_balance) / peak_balance) * 100
  (decide (drawdown_pct ≤ -s.max_drawdown_pct), s)

/-- The close-column call chain `pct_change().dropna()`: the simple return of each price
relative to its predecessor; `dropna` removes the leading NaN, leaving one
entry per consecutive pair. -/
def pctChange (prices : List ℚ) : List ℚ :=
  (prices.zip prices.tail).map fun pq => (pq.2 - pq.1) / pq.1

/-- The Python slice `xs[-lookback:]`: the `lookback` most recent elements
(all of them if the list is shorter, and — as in Python, where `-0` is `0` —
all of them when `lookback = 0`). -/
def takeRecent (xs : List ℚ) (lookback : ℕ) : List ℚ :=
  if lookback = 0 then xs else xs.drop (xs.length - lookback)

/-- `pandas.Series.std()` with the default `ddof=1`: the sample standard
deviation, NaN (here `none`) on fewer than two observations.  To stay inside
`ℚ` we return the *square* of the standard deviation (the sample variance);
every use in the source compares the nonnegative `std * sqrt(252)` against a
nonnegative threshold, which is equivalent to comparing the squares. -/
def sampleVarianceQ (xs : List ℚ) : Option ℚ :=
  if xs.length < 2 then none
  else
    let n : ℚ := xs.length
    let m := xs.sum / n
    some ((xs.map fun x => (x - m) ^ 2).sum / (n - 1))

/-- Square of `returns[-lookback:].std() * np.sqrt(252)` (line 240): the
square of the annualized recent volatility, `none` when pandas would give
NaN. -/
def recentVolatilitySq (prices : List ℚ) (lookback : ℕ) : Option ℚ :=
  (sampleVarianceQ (takeRecent (pctChange prices) lookback)).map (· * 252)

/-- The comparison `recent_volatility > 0.8` (line 249).  In floating point
`NaN > 0.8` is `False`; on actual numbers `std * sqrt 252 > 0.8` holds iff
`(std * sqrt 252)^2 > 0.64` because `std ≥ 0`.  `16/25 = 0.8^2`. -/
def volatilityExceeds (volSq : Option ℚ) : Bool :=
  match volSq with
  | some v => decide (v > 16 / 25)
  | none => false

/-- The test `trend_strength is not None and trend_strength > 25`
(line 252). -/
def trendExceeds (trend_strength : Option ℚ) : Bool :=
  match trend_strength with
  | some t => decide (t > 25)
  | none => false

/-- The dict returned by `check_market_conditions` (lines 259-264).
`volatilitySq` holds the square of the stored `volatility` value (see
`sampleVarianceQ`), `none` standing for NaN. -/
structure MarketConditions where
  market_regime : String
  volatilitySq : Option ℚ
  trend_strength : Option ℚ
  risk_factor : ℚ
  deriving Repr, DecidableEq

/-- `check_market_conditions(self, df, lookback=20)` (lines 227-264).  The
dataframe is modelled by its `close` column (`prices`) and the last value of
its optional `adx_14` column (`trend_strength`).  The body reads no `self`
field and performs no validation: it is total. -/
def check_market_conditions (s : LossPreventionSystem)
    (prices : List ℚ) (trend_strength : Option ℚ) (lookback : ℕ) :
    MarketConditions × LossPreventionSystem :=
  let recent_volatility := recentVolatilitySq prices lookback
  if volatilityExceeds recent_volatility then
    (⟨"High Volatility", recent_volatility, trend_strength, 1/2⟩, s)
  else if trendExceeds trend_strength then
    (⟨"Strong Trend", recent_volatility, trend_strength, 1⟩, s)
  else
    (⟨"Normal", recent_volatility, trend_strength, 3/4⟩, s)

/-- The dict returned by `adjust_risk_for_market_conditions`. -/
structure AdjustedParams where
  max_position_size_pct : ℚ
  max_risk_per_trade_pct : ℚ
  trailing_stop_pct : ℚ
  deriving Repr, DecidableEq

/-- `adjust_risk_for_market_conditions(self, market_conditions)` (lines
266-285): returns the scaled parameters as a fresh dict; `self` is only
read. -/
def adjust_risk_for_market_conditions (s : LossPreventionSystem)
    (market_conditions : MarketConditions) :
    AdjustedParams × LossPreventionSystem :=
  let risk_factor := market_conditions.risk_factor
  (⟨s.max_position_size_pct * risk_factor,
    s.max_risk_per_trade_pct * risk_factor,
    s.trailing_stop_pct * (2 - risk_factor)⟩, s)

/-- The dict returned by `generate_risk_report` (lines 322-332).
`risk_reward` is `none` for the Python float infinity. -/
structure RiskReport where
  total_exposure : ℚ
  exposure_pct : ℚ
  open_positions : ℕ
  win_rate : ℚ
  avg_win : ℚ
  avg_loss : ℚ
  risk_reward : Option ℚ
  expectancy : ℚ
  risk_status : String
  deriving Repr, DecidableEq

/-- `generate_risk_report(self, trades, account_balance, open_positions)`
(lines 287-334).  `trades` is modelled by its `profit_loss` column,
`open_positions` by the list of position values.  When `len(trades) == 0` the
branch at line 304 skips the assignment of `winning_trades`, and line 311
then reads the unassigned local: Python raises `UnboundLocalError`.  That
control flow is reproduced here; the state is only read. -/
def generate_risk_report (s : LossPreventionSystem)
    (trades : List ℚ) (account_balance : ℚ) (open_positions : List ℚ) :
    Except String RiskReport × LossPreventionSystem :=
  let total_exposure := open_positions.sum
  let exposure_pct := (total_exposure / account_balance) * 100
  if trades.length > 0 then
    let winning_trades := trades.filter (fun x => x > 0)
    let win_rate : ℚ := (winning_trades.length : ℚ) / (trades.length : ℚ) * 100
    let avg_win : ℚ :=
      if winning_trades.length > 0 then winning_trades.sum / winning_trades.length else 0
    let losing_trades := trades.filter (fun x => x < 0)
    let avg_loss : ℚ :=
      if losing_trades.length > 0 then losing_trades.sum / losing_trades.length else 0
    let risk_reward : Option ℚ := if avg_loss ≠ 0 then some |avg_win / avg_loss| else none
    let expectancy := (win_rate / 100 * avg_win) + ((100 - win_rate) / 100 * avg_loss)
    let risk_status :=
      if exposure_pct > 50 then "High Risk"
      else if exposure_pct > 25 then "Medium Risk" else "Low Risk"
    (.ok ⟨total_exposure, exposure_pct, open_positions.length, win_rate,
          avg_win, avg_loss, risk_reward, expectancy, risk_status⟩, s)
  else
    (.error "UnboundLocalError: local variable winning_trades referenced before assignment", s)

/-! ## General lemmas -/

/-- Every step of a `scanl` relates the accumulator to its successor, so the
whole scan is a chain. -/
theorem chain_scanl {α : Type} {r : α → α → Prop} {f : α → α → α}
    (hf : ∀ b a, r b (f b a)) :
    ∀ (l : List α) (b : α), List.Chain' r (List.scanl f b l) := by
  intro l
  induction l with
  | nil => intro b; simp
  | cons a l ih =>
      intro b
      rw [List.scanl_cons, List.singleton_append]
      refine List.chain'_cons'.mpr ⟨?_, ih (f b a)⟩
      intro y hy
      have hy' : f b a = y := by
        cases l with
        | nil => simpa [List.scanl_nil] using hy
        | cons a2 l2 =>
            rw [List.scanl_cons, List.singleton_append] at hy
            simpa using hy
      rw [← hy']
      exact hf b a

/-- `Option.getD` keeps a lower bound that both the default and every
possible stored value satisfy. -/
theorem le_getD {α : Type} [Preorder α] {c d : α} {o : Option α}
    (hd : c ≤ d) (ho : ∀ x, o = some x → c ≤ x) : c ≤ o.getD d := by
  cases o with
  | none => exact hd
  | some x => exact ho x rfl

/-! ## Claim theorems -/

/-- **C1.** Trailing-stop ratchet: `update_trailing_stop` returns
`max(candidate, current_stop)` for a long position (`direction = 1`) and
`min(candidate, current_stop)` for a short one, with
`candidate = current_price * (1 ∓ trailing_stop_pct/100)`; consequently,
feeding the returned stop back as `current_stop` over any sequence of
current prices yields a non-decreasing stop sequence for a long position and
a non-increasing one for a short position. -/
theorem trailing_stop_ratchet (s : LossPreventionSystem) :
    (∀ e c st : ℚ,
      (update_trailing_stop s e c st 1).1 = max (c * (1 - s.trailing_stop_pct / 100)) st ∧
      (update_trailing_stop s e c st (-1)).1 = min (c * (1 + s.trailing_stop_pct / 100)) st) ∧
    (∀ (e st : ℚ) (prices : List ℚ), List.Chain' (· ≤ ·)
      (List.scanl (fun stp pr => (update_trailing_stop s e pr stp 1).1) st prices)) ∧
    (∀ (e st : ℚ) (prices : List ℚ), List.Chain' (· ≥ ·)
      (List.scanl (fun stp pr => (update_trailing_stop s e pr stp (-1)).1) st prices)) := by
  have hmax : ∀ e c st : ℚ,
      (update_trailing_stop s e c st 1).1 = max (c * (1 - s.trailing_stop_pct / 100)) st := by
    intro e c st
    unfold update_trailing_stop
    rw [if_pos rfl]
    rcases le_or_lt (c * (1 - s.trailing_stop_pct / 100)) st with h | h
    · rw [if_neg (not_lt.mpr h)]
      exact (max_eq_right h).symm
    · rw [if_pos h]
      exact (max_eq_left h.le).symm
  have hmin : ∀ e c st : ℚ,
      (update_trailing_stop s e c st (-1)).1 = min (c * (1 + s.trailing_stop_pct / 100)) st := by
    intro e c st
    unfold update_trailing_stop
    rw [if_neg (by decide : ¬ ((-1 : ℤ) = 1))]
    rcases lt_or_le (c * (1 + s.trailing_stop_pct / 100)) st with h | h
    · rw [if_pos h]
      exact (min_eq_left h.le).symm
    · rw [if_neg (not_lt.mpr h)]
      exact (min_eq_right h).symm
  refine ⟨fun e c st => ⟨hmax e c st, hmin e c st⟩, ?_, ?_⟩
  · intro e st prices
    exact chain_scanl (fun stp pr => by rw [hmax e pr stp]; exact le_max_right _ _) prices st
  · intro e st prices
    exact chain_scanl (fun stp pr => by rw [hmin e pr stp]; exact min_le_right _ _) prices st

/-- **C10.** The result of `update_trailing_stop` does not depend on the
`entry_price` argument: the body never reads it. -/
theorem trailing_stop_ignores_entry_price (s : LossPreventionSystem)
    (e₁ e₂ c st : ℚ) (d : ℤ) :
    update_trailing_stop s e₁ c st d = update_trailing_stop s e₂ c st d := rfl

/-- **C3 (code bug).** On an empty trade history `generate_risk_report` does
not return the sentinel report the specification promises: line 311 of the
source reads the local `winning_trades`, which the skipped `len(trades) > 0`
branch never assigned, so Python raises `UnboundLocalError`. -/
theorem risk_report_empty_trades_raises :
    (generate_risk_report initSystem [] 10000 [5000]).1 =
      .error "UnboundLocalError: local variable winning_trades referenced before assignment" :=
  rfl

/-- **C4 (counterexample).** The claim says `calculate_stop_loss` fails with
`InvalidInput` whenever `entry_price ≤ 0`; in fact the body performs no
validation: at `entry_price = -100` (long, no atr, no fixed pct) it happily
returns the price `-95`. -/
theorem stop_loss_no_validation_counterexample :
    (-100 : ℚ) ≤ 0 ∧
    (calculate_stop_loss initSystem (-100) 1 none none).1 = .ok (-95) := by
  constructor
  · norm_num
  · unfold calculate_stop_loss
    norm_num

/-- **C4 (amended).** `calculate_stop_loss` performs no entry-price
validation and never raises `InvalidInput`: it returns a price for every
input — including `entry_price ≤ 0` — except in the single case
`entry_price = 0` with `atr` supplied and `fixed_pct` absent, where the
division `2 * atr / entry_price` raises `ZeroDivisionError`. -/
theorem stop_loss_total_unless_zero_division (s : LossPreventionSystem)
    (entry_price : ℚ) (direction : ℤ) (atr fixed_pct : Option ℚ)
    (h : fixed_pct ≠ none ∨ atr = none ∨ entry_price ≠ 0) :
    ∃ p : ℚ, (calculate_stop_loss s entry_price direction atr fixed_pct).1 = .ok p := by
  unfold calculate_stop_loss
  cases fixed_pct with
  | some f =>
      by_cases hd : direction = 1 <;> simp [hd]
  | none =>
      cases atr with
      | none => by_cases hd : direction = 1 <;> simp [hd]
      | some a =>
          have he : entry_price ≠ 0 := by
            rcases h with h | h | h
            · exact absurd rfl h
            · exact absurd h (by simp)
            · exact h
          by_cases hd : direction = 1 <;> simp [hd, he]

/-- Witness for `stop_loss_total_unless_zero_division` at the concrete input
`entry_price = -100`, long, no optional arguments. -/
theorem stop_loss_total_unless_zero_division_witness :
    ∃ p : ℚ, (calculate_stop_loss initSystem (-100) 1 none none).1 = .ok p :=
  stop_loss_total_unless_zero_division initSystem (-100) 1 none none
    (Or.inr (Or.inl rfl))

/-- A kwargs record whose present values respect the claimed invariant:
nonnegative percentages and at least one allowed open position. -/
def KwargsRespectInvariant (kw : RiskKwargs) : Prop :=
  (∀ x, kw.max_position_size_pct = some x → 0 ≤ x) ∧
  (∀ x, kw.max_risk_per_trade_pct = some x → 0 ≤ x) ∧
  (∀ x, kw.max_daily_loss_pct = some x → 0 ≤ x) ∧
  (∀ x, kw.max_drawdown_pct = some x → 0 ≤ x) ∧
  (∀ x, kw.trailing_stop_pct = some x → 0 ≤ x) ∧
  (∀ n, kw.max_open_positions = some n → 1 ≤ n)

/-- **C7 (counterexample).** The claim says every state reachable from the
default construction through `set_risk_parameters` keeps all percentage
fields nonnegative; but `set_risk_parameters` validates nothing, so a single
call setting `max_position_size_pct = -1` reaches a violating state. -/
theorem params_invariant_counterexample :
    ReachableState (set_risk_parameters initSystem
      { max_position_size_pct := some (-1) }) ∧
    ¬ ParamInvariant (set_risk_parameters initSystem
      { max_position_size_pct := some (-1) }) :=
  ⟨ReachableState.step _ ReachableState.init, by decide⟩

/-- **C7 (amended).** The default construction satisfies the invariant
(every percentage field ≥ 0, `max_open_positions ≥ 1`), and
`set_risk_parameters` preserves it *provided* the caller only supplies
conforming values — the method itself performs no validation, so the
invariant is a caller obligation, not a guarantee of the code. -/
theorem params_invariant_preserved (s : LossPreventionSystem) (kw : RiskKwargs)
    (hs : ParamInvariant s) (hkw : KwargsRespectInvariant kw) :
    ParamInvariant initSystem ∧ ParamInvariant (set_risk_parameters s kw) := by
  obtain ⟨hs1, hs2, hs3, hs4, hs5, hs6⟩ := hs
  obtain ⟨hk1, hk2, hk3, hk4, hk5, hk6⟩ := hkw
  refine ⟨by decide, ?_, ?_, ?_, ?_, ?_, ?_⟩
  · exact le_getD hs1 hk1
  · exact le_getD hs2 hk2
  · exact le_getD hs3 hk3
  · exact le_getD hs4 hk4
  · exact le_getD hs5 hk5
  · exact le_getD hs6 hk6

/-- Witness for `params_invariant_preserved` at the default state and an
update that sets `trailing_stop_pct = 3` and `max_open_positions = 5`. -/
theorem params_invariant_preserved_witness :
    ParamInvariant initSystem ∧ ParamInvariant (set_risk_parameters initSystem
      { trailing_stop_pct := some 3, max_open_positions := some 5 }) :=
  params_invariant_preserved initSystem
    { trailing_stop_pct := some 3, max_open_positions := some 5 }
    (by decide)
    (by
      norm_num [KwargsRespectInvariant]
      exact fun x hx => nomatch hx)

/-- **C2.** `calculate_position_size` always returns a value between `0` and
the cap `account_balance * max_position_size_pct/100 / entry_price`
(for nonnegative balance, positive entry price, nonnegative percentage
parameters and nonnegative volatility), and — when `volatility_adjustment`
is enabled and everything else is fixed — the result is monotonically
non-increasing in the supplied volatility. -/
theorem position_size_bounded_and_monotone (s : LossPreventionSystem)
    (account_balance entry_price stop_loss : ℚ) (volatility : Option ℚ)
    (hb : 0 ≤ account_balance) (he : 0 < entry_price)
    (hr : 0 ≤ s.max_risk_per_trade_pct) (hp : 0 ≤ s.max_position_size_pct)
    (hv : ∀ v, volatility = some v → 0 ≤ v) :
    (0 ≤ (calculate_position_size s account_balance entry_price stop_loss volatility).1 ∧
      (calculate_position_size s account_balance entry_price stop_loss volatility).1 ≤
        account_balance * (s.max_position_size_pct / 100) / entry_price) ∧
    (s.volatility_adjustment = true → ∀ v₁ v₂ : ℚ, 0 ≤ v₁ → v₁ ≤ v₂ →
      (calculate_position_size s account_balance entry_price stop_loss (some v₂)).1 ≤
      (calculate_position_size s account_balance entry_price stop_loss (some v₁)).1) := by
  have hcap : 0 ≤ account_balance * (s.max_position_size_pct / 100) / entry_price :=
    div_nonneg (mul_nonneg hb (div_nonneg hp (by norm_num))) he.le
  have hbase : 0 ≤ account_balance * (s.max_risk_per_trade_pct / 100) / |entry_price - stop_loss| :=
    div_nonneg (mul_nonneg hb (div_nonneg hr (by norm_num))) (abs_nonneg _)
  constructor
  · dsimp only [calculate_position_size]
    by_cases h0 : |entry_price - stop_loss| = 0
    · rw [if_pos h0]
      exact ⟨le_refl 0, hcap⟩
    · rw [if_neg h0]
      constructor
      · refine le_min ?_ hcap
        cases hva : s.volatility_adjustment
        · cases volatility with
          | none => exact hbase
          | some v => exact hbase
        · cases volatility with
          | none => exact hbase
          | some v =>
              have hv0 : 0 ≤ v := hv v rfl
              exact mul_nonneg hbase (one_div_nonneg.mpr (by linarith))
      · exact min_le_right _ _
  · intro hva v₁ v₂ h1 h12
    dsimp only [calculate_position_size]
    by_cases h0 : |entry_price - stop_loss| = 0
    · rw [if_pos h0, if_pos h0]
    · rw [if_neg h0, if_neg h0, hva]
      refine min_le_min ?_ (le_refl _)
      refine mul_le_mul_of_nonneg_left ?_ hbase
      exact one_div_le_one_div_of_le (by linarith) (by linarith)

/-- Witness for `position_size_bounded_and_monotone` at the default
parameters with the scenario inputs and volatility `1/2`. -/
theorem position_size_bounded_and_monotone_witness :
    (0 ≤ (calculate_position_size initSystem 10000 50000 48000 (some (1/2))).1 ∧
      (calculate_position_size initSystem 10000 50000 48000 (some (1/2))).1 ≤
        10000 * (initSystem.max_position_size_pct / 100) / 50000) ∧
    (initSystem.volatility_adjustment = true → ∀ v₁ v₂ : ℚ, 0 ≤ v₁ → v₁ ≤ v₂ →
      (calculate_position_size initSystem 10000 50000 48000 (some v₂)).1 ≤
      (calculate_position_size initSystem 10000 50000 48000 (some v₁)).1) :=
  position_size_bounded_and_monotone initSystem 10000 50000 48000 (some (1/2))
    (by norm_num) (by norm_num) (by norm_num [initSystem]) (by norm_num [initSystem])
    (fun v h => by injection h with h; rw [← h]; norm_num)

/-- **C9.** The concrete sizing scenario: balance `10000`, entry `50000`,
stop `48000`, volatility `0.5`, default parameters.  `risk_amount = 200`,
`risk_per_unit = 2000`, raw size `0.1`, volatility-adjusted size
`0.1 * (1/1.5) = 1/15`, cap `10000 * 0.05 / 50000 = 0.01`; the cap is
applied after the volatility adjustment and binds, so the result is exactly
`0.01`. -/
theorem position_size_scenario :
    (calculate_position_size initSystem 10000 50000 48000 (some (1/2))).1 = 1/100 ∧
    (10000 : ℚ) * (initSystem.max_risk_per_trade_pct / 100) = 200 ∧
    |(50000 : ℚ) - 48000| = 2000 ∧
    (200 : ℚ) / 2000 = 1/10 ∧
    (1/10 : ℚ) * (1 / (1 + 1/2)) = 1/15 ∧
    (10000 : ℚ) * (initSystem.max_position_size_pct / 100) / 50000 = 1/100 ∧
    min (1/15 : ℚ) (1/100) = 1/100 := by
  refine ⟨?_, by norm_num [initSystem], by norm_num, by norm_num, by norm_num,
    by norm_num [initSystem], by norm_num⟩
  unfold calculate_position_size initSystem
  norm_num

/-- **C5 (counterexample).** The claim says `check_market_conditions` fails
with `InsufficientData` on a series with fewer than 2 points; in fact the
body contains no such check and no raise at all: on the one-point series
`[100]` the return list is empty, its pandas standard deviation is NaN,
`NaN > 0.8` is `False`, and the call succeeds with regime `Normal`. -/
theorem market_conditions_singleton_no_error :
    (check_market_conditions initSystem [100] none 20).1 =
      ⟨"Normal", none, none, 3/4⟩ := by
  rfl

/-- **C5 (amended).** `check_market_conditions` never raises: it is total.
With fewer than 3 price points (hence fewer than 2 returns) the pandas
sample standard deviation is NaN (modelled `none`), which compares false
against the `0.8` threshold, so the regime is decided by `trend_strength`
alone; otherwise the volatility is the sample standard deviation (`ddof=1`)
of the most recent `lookback` simple returns annualized by `sqrt 252`. -/
theorem market_conditions_short_series (s : LossPreventionSystem)
    (prices : List ℚ) (trend_strength : Option ℚ) (lookback : ℕ)
    (h : prices.length < 3) :
    (∀ (prices2 : List ℚ) (trend2 : Option ℚ) (lb2 : ℕ),
      (check_market_conditions s prices2 trend2 lb2).1.volatilitySq =
        recentVolatilitySq prices2 lb2) ∧
    (check_market_conditions s prices trend_strength lookback).1.volatilitySq = none ∧
    (check_market_conditions s prices trend_strength lookback).1.market_regime =
      (if trendExceeds trend_strength then "Strong Trend" else "Normal") := by
  refine ⟨?_, ?_⟩
  · intro prices2 trend2 lb2
    dsimp only [check_market_conditions]
    repeat' split
    all_goals rfl
  have hlen : (takeRecent (pctChange prices) lookback).length < 2 := by
    have h1 : (pctChange prices).length ≤ 1 := by
      unfold pctChange
      rw [List.length_map, List.length_zip, List.length_tail]
      omega
    have h2 : (takeRecent (pctChange prices) lookback).length ≤ (pctChange prices).length := by
      unfold takeRecent
      split
      · exact le_refl _
      · rw [List.length_drop]; omega
    omega
  have hvar : recentVolatilitySq prices lookback = none := by
    unfold recentVolatilitySq sampleVarianceQ
    rw [if_pos hlen]
    rfl
  cases ht : trendExceeds trend_strength <;>
    simp [check_market_conditions, hvar, volatilityExceeds, ht]

/-- Witness for `market_conditions_short_series` at the one-point series
`[100]` with a strong trend value supplied. -/
theorem market_conditions_short_series_witness :
    (∀ (prices2 : List ℚ) (trend2 : Option ℚ) (lb2 : ℕ),
      (check_market_conditions initSystem prices2 trend2 lb2).1.volatilitySq =
        recentVolatilitySq prices2 lb2) ∧
    (check_market_conditions initSystem [100] (some 30) 20).1.volatilitySq = none ∧
    (check_market_conditions initSystem [100] (some 30) 20).1.market_regime =
      (if trendExceeds (some 30) then "Strong Trend" else "Normal") :=
  market_conditions_short_series initSystem [100] (some 30) 20 (by norm_num)

/-- **C6.** The regime classification follows the fixed priority with fixed
constants: computed annualized volatility above `0.8` gives
`High Volatility` with `risk_factor = 0.5` regardless of `trend_strength`;
otherwise a present `trend_strength` above `25` gives `Strong Trend` with
`risk_factor = 1.0`; otherwise `Normal` with `risk_factor = 0.75`. -/
theorem regime_priority (s : LossPreventionSystem)
    (prices : List ℚ) (trend_strength : Option ℚ) (lookback : ℕ) :
    (volatilityExceeds (recentVolatilitySq prices lookback) = true →
      (check_market_conditions s prices trend_strength lookback).1.market_regime =
        "High Volatility" ∧
      (check_market_conditions s prices trend_strength lookback).1.risk_factor = 1/2) ∧
    (volatilityExceeds (recentVolatilitySq prices lookback) = false →
      trendExceeds trend_strength = true →
      (check_market_conditions s prices trend_strength lookback).1.market_regime =
        "Strong Trend" ∧
      (check_market_conditions s prices trend_strength lookback).1.risk_factor = 1) ∧
    (volatilityExceeds (recentVolatilitySq prices lookback) = false →
      trendExceeds trend_strength = false →
      (check_market_conditions s prices trend_strength lookback).1.market_regime = "Normal" ∧
      (check_market_conditions s prices trend_strength lookback).1.risk_factor = 3/4) := by
  refine ⟨fun hv => ?_, fun hv ht => ?_, fun hv ht => ?_⟩
  · simp [check_market_conditions, hv]
  · simp [check_market_conditions, hv, ht]
  · simp [check_market_conditions, hv, ht]

/-- Witness for `regime_priority`: the series `[1, 2, 1]` has squared
annualized volatility `(9/8) * 252` far above `0.64`, so even with a strong
trend value `100` the regime is `High Volatility` with factor `1/2`. -/
theorem regime_priority_witness :
    (check_market_conditions initSystem [1, 2, 1] (some 100) 20).1.market_regime =
      "High Volatility" ∧
    (check_market_conditions initSystem [1, 2, 1] (some 100) 20).1.risk_factor = 1/2 :=
  (regime_priority initSystem [1, 2, 1] (some 100) 20).1
    (by norm_num [recentVolatilitySq, pctChange, takeRecent, sampleVarianceQ, volatilityExceeds])

/-- **C8.** No calculation call mutates the risk-parameter state: each of
the seven operations returns the `LossPreventionSystem` record unchanged,
and `adjust_risk_for_market_conditions` in particular only *returns* the
scaled values (`max_position_size_pct` and `max_risk_per_trade_pct` times
`risk_factor`, `trailing_stop_pct` times `2 - risk_factor`) without applying
them to the state. -/
theorem calculations_do_not_mutate_state (s : LossPreventionSystem) :
    (∀ (b e st : ℚ) (v : Option ℚ), (calculate_position_size s b e st v).2 = s) ∧
    (∀ (e : ℚ) (d : ℤ) (a f : Option ℚ), (calculate_stop_loss s e d a f).2 = s) ∧
    (∀ (e st : ℚ) (d : ℤ) (rr : ℚ), (calculate_take_profit s e st d rr).2 = s) ∧
    (∀ (e c st : ℚ) (d : ℤ), (update_trailing_stop s e c st d).2 = s) ∧
    (∀ (prices : List ℚ) (t : Option ℚ) (lb : ℕ),
      (check_market_conditions s prices t lb).2 = s) ∧
    (∀ (tr : List ℚ) (bal : ℚ) (op : List ℚ), (generate_risk_report s tr bal op).2 = s) ∧
    (∀ mc : MarketConditions, (adjust_risk_for_market_conditions s mc).2 = s) ∧
    (∀ mc : MarketConditions, (adjust_risk_for_market_conditions s mc).1 =
      ⟨s.max_position_size_pct * mc.risk_factor,
       s.max_risk_per_trade_pct * mc.risk_factor,
       s.trailing_stop_pct * (2 - mc.risk_factor)⟩) := by
  refine ⟨?_, ?_, ?_, ?_, ?_, ?_, ?_, ?_⟩
  · intro b e st v
    dsimp only [calculate_position_size]
    repeat' split
    all_goals rfl
  · intro e d a f
    dsimp only [calculate_stop_loss]
    repeat' split
    all_goals rfl
  · intro e st d rr
    dsimp only [calculate_take_profit]
    repeat' split
    all_goals rfl
  · intro e c st d
    dsimp only [update_trailing_stop]
    repeat' split
    all_goals rfl
  · intro prices t lb
    dsimp only [check_market_conditions]
    repeat' split
    all_goals rfl
  · intro tr bal op
    dsimp only [generate_risk_report]
    repeat' split
    all_goals rfl
  · intro mc
    rfl
  · intro mc
    rfl
